import Mathlib

/-!
Verification of the easy-bus core (Go package `bus`) against its
specification.  The development shallowly embeds the current source files:
the Message envelope and its json wire format, the consumer pipeline
`Handler.handleMsg`, the Prepare defaulting, and the transactional
`Sender.Send` together with its reconciliation handler.

Modelling conventions:
* `encoding/json` (Go standard library) is modelled at the JSON value
  level: a marshalled byte string is represented by the `Json` value it
  denotes.  `json.Marshal` is injective up to this representation, and a
  `[]byte` field is represented by `Option Json` (`none` for a nil/empty
  slice, `some v` for the marshalled bytes of the value `v`; Go renders
  those bytes as a base64 JSON string on the wire, an injective coding
  that the model elides).
* Go `error` results are modelled as `Option Unit` (`none` = nil error).
* Go panics escaping a function body are modelled with `Option`/`Except`
  result types; the `defer handlePanic` barrier of `handleMsg` is applied
  on top of the body.
* Collaborators behind the Driver / Idempotent / DLStorage / TXStorage /
  Logger interfaces are universally quantified oracles; calls the code
  makes are additionally recorded in an event trace so that statements
  about call order and about calls never happening can be expressed.
  Logging (`Logger.Errorf`) is not observable in the claims and is not
  traced.
-/

namespace EasyBus

/-- JSON value, the value-level model of a marshalled byte string. -/
inductive Json where
  | null
  | boolean (b : Bool)
  | num (n : Int)
  | str (s : String)
  | arr (elems : List Json)
  | obj (fields : List (String × Json))

/-- Message envelope (message.go).  Field tags in the source:
`BizUID string json:"b,omitempty"`, `Payload []byte json:"p,omitempty"`,
`Retried int json:"r,omitempty"`, `RouteKey string json:"k,omitempty"`.
`Payload` holds marshalled bytes of the payload value, modelled as
`Option Json` (`none` = nil/empty slice). -/
structure Message where
  BizUID : String := ""
  Payload : Option Json := none
  Retried : Int := 0
  RouteKey : String := ""

/-- The json.Marshal of a `Message` under the source struct tags: an
object with short keys `b`, `p`, `r`, `k`, each omitted when the field
is empty/zero (`omitempty`).  This is the model of `encode(msg)`. -/
def encode (m : Message) : Json :=
  Json.obj
    ((if m.BizUID = "" then [] else [("b", Json.str m.BizUID)])
      ++ (match m.Payload with
          | none => []
          | some p => [("p", p)])
      ++ (if m.Retried = 0 then [] else [("r", Json.num m.Retried)])
      ++ (if m.RouteKey = "" then [] else [("k", Json.str m.RouteKey)]))

/-- One step of json.Unmarshal into a `Message`: apply one object field.
Unknown keys are ignored, `null` leaves the field untouched, a key bound
to a value of the wrong shape is a decode error (`none`).  For key `p`
the value is the (base64-abstracted) payload bytes; `encode` only ever
emits the image of non-empty bytes there, so the field is taken as is. -/
def applyField (m : Message) (kv : String × Json) : Option Message :=
  if kv.1 = "b" then
    match kv.2 with
    | Json.str s => some { m with BizUID := s }
    | Json.null => some m
    | _ => none
  else if kv.1 = "p" then
    some { m with Payload := some kv.2 }
  else if kv.1 = "r" then
    match kv.2 with
    | Json.num n => some { m with Retried := n }
    | Json.null => some m
    | _ => none
  else if kv.1 = "k" then
    match kv.2 with
    | Json.str s => some { m with RouteKey := s }
    | Json.null => some m
    | _ => none
  else some m

/-- json.Unmarshal of a value into a `Message`; `none` models the decode
error that `decode(bts, &msg)` turns into a panic.  Absent fields keep
their zero value; a top level `null` leaves the zero message. -/
def decode (j : Json) : Option Message :=
  match j with
  | Json.null => some {}
  | Json.obj fields => fields.foldlM applyField {}
  | _ => none

/-- Source `MessageWithId`: explicit id, payload marshalled into
`Payload`, retry count zero. -/
def MessageWithId (id : String) (payload : Json) (routeKey : String) : Message :=
  { BizUID := id, Payload := some payload, RouteKey := routeKey }

/-- Source `MessageAutoId`: `MessageWithId` at a generated sequence id
(`generateSeqId()`, modelled as the parameter `genId`). -/
def MessageAutoId (genId : String) (payload : Json) (routeKey : String) : Message :=
  MessageWithId genId payload routeKey

/-- Source `Message.Scan(dest)`: `decode(m.Payload, dest)`.  At the JSON
value level unmarshalling the marshalled payload into a destination of
the payload's shape yields the payload value itself; a nil payload is a
decode panic (`none`). -/
def Message.Scan (m : Message) : Option Json := m.Payload

/-- Idempotent interface (interface.go): `Acquire(key) (bool, error)`,
`Release(key) error`. -/
structure Idempotent where
  acquire : String → Bool × Option Unit
  release : String → Option Unit

/-- Source `nullIdempotent` (internal.go): `Acquire` returns
`(false, nil)`, `Release` returns nil. -/
def nullIdempotent : Idempotent :=
  { acquire := fun _ => (false, none), release := fun _ => none }

/-- Source `nullDLStorage.Store` (internal.go): silently succeeds. -/
def nullDLStorageStore : String → Json → Option Unit := fun _ _ => none

/-- Event trace of the collaborator calls `handleMsg` makes, in the order
the source makes them. -/
inductive Ev where
  | acquire (key : String)
  | ensureCall
  | handleCall
  | release (key : String)
  | dlStore (queue : String) (data : Json)
  | sendQueue (queue : String) (data : Json) (delay : Int)

/-- Prepared `Handler` restricted to the fields `handleMsg` reads
(handler.go).  `HandleFunc` may panic (`Except.error`), modelling a
panicking user callback; the other collaborators are total oracles.
`RetryDelay` maps an attempt count to a `time.Duration`, modelled as
`Int` (negative = no retry). -/
structure HandlerM where
  Queue : String
  Idem : Idempotent
  EnsureFunc : Message → Bool
  HandleFunc : Message → Except Unit Bool
  RetryDelay : Int → Int
  DLStore : String → Json → Option Unit
  SendToQueue : String → Json → Int → Option Unit

/-- The `allow` value after the idempotent gate of `handleMsg`:
`allow, err := h.Idempotent.Acquire(key); if err != nil { allow = false }`. -/
def allowOf (h : HandlerM) (key : String) : Bool :=
  if (h.Idem.acquire key).2.isSome then false else (h.Idem.acquire key).1

/-- Failure path of `handleMsg` (handler.go, after `HandleFunc` returned
false): release the idempotent key (error only logged), increment
`Retried`, then either dead-letter the raw bytes (`RetryDelay < 0`) or
re-publish the re-encoded message with the computed delay.  Returns
(done, events emitted by this suffix of the run). -/
def failurePath (h : HandlerM) (data : Json) (msg0 : Message) (key : String) :
    Bool × List Ev :=
  let msg := { msg0 with Retried := msg0.Retried + 1 }
  let delay := h.RetryDelay msg.Retried
  if delay < 0 then
    ((h.DLStore h.Queue data).isNone, [Ev.release key, Ev.dlStore h.Queue data])
  else
    ((h.SendToQueue h.Queue (encode msg) delay).isNone,
      [Ev.release key, Ev.sendQueue h.Queue (encode msg) delay])

/-- Tail of `handleMsg` once the idempotent/ensure gate allowed
processing: call `HandleFunc`; on true ack, on false run the failure
path, on panic propagate (`none`). -/
def afterGate (h : HandlerM) (data : Json) (msg0 : Message) (key : String)
    (tr : List Ev) : Option Bool × List Ev :=
  match h.HandleFunc msg0 with
  | Except.error _ => (none, tr ++ [Ev.handleCall])
  | Except.ok true => (some true, tr ++ [Ev.handleCall])
  | Except.ok false =>
    let fp := failurePath h data msg0 key
    (some fp.1, tr ++ [Ev.handleCall] ++ fp.2)

/-- Body of `handleMsg` without the panic barrier (handler.go lines after
the deferred `handlePanic`).  `(none, tr)` means a panic escaped after
the events `tr` (a decode error or a `HandleFunc` panic); `(some done,
tr)` is a normal return. -/
def handleMsgBody (h : HandlerM) (data : Json) : Option Bool × List Ev :=
  match decode data with
  | none => (none, [])
  | some msg0 =>
    let key := h.Queue ++ "." ++ msg0.BizUID
    if allowOf h key then
      afterGate h data msg0 key [Ev.acquire key]
    else if h.EnsureFunc msg0 then
      afterGate h data msg0 key [Ev.acquire key, Ev.ensureCall]
    else
      (some true, [Ev.acquire key, Ev.ensureCall])

/-- Source `Handler.handleMsg` (handler.go): the body wrapped in the
deferred panic barrier `handlePanic(func(i){ done = h.DLStorage.Store(
h.Queue, data) == nil; ... })` — on a recovered panic, `done` is the
success of storing the raw bytes into the dead letter storage. -/
def handleMsg (h : HandlerM) (data : Json) : Bool × List Ev :=
  match handleMsgBody h data with
  | (some done, tr) => (done, tr)
  | (none, tr) => ((h.DLStore h.Queue data).isNone, tr ++ [Ev.dlStore h.Queue data])

/-- `Handler` configuration before `Prepare` (handler.go): the optional
collaborators that `Prepare` substitutes when nil.  `Queue`,
`HandleFunc`, and the driver are the required fields; `Prepare` throws
when `Queue` is empty (missing Driver/HandleFunc are unrepresentable
here since the fields are total). -/
structure HandlerCfg where
  Queue : String
  Idem : Option Idempotent
  EnsureFunc : Option (Message → Bool)
  HandleFunc : Message → Except Unit Bool
  RetryDelay : Option (Int → Int)
  DLStore : Option (String → Json → Option Unit)
  SendToQueue : String → Json → Int → Option Unit

/-- Source `Handler.Prepare` defaulting (handler.go): substitute
`nullDLStorage`, `nullIdempotent`, the constant-false `EnsureFunc`, and
the constant `-1` `RetryDelay` for absent collaborators; throw (`none`)
on an empty queue name.  Driver side effects (CreateQueue/Subscribe) do
not affect `handleMsg` and are not modelled. -/
def Prepare (cfg : HandlerCfg) : Option HandlerM :=
  if cfg.Queue = "" then none
  else
    some
      { Queue := cfg.Queue
        Idem := cfg.Idem.getD nullIdempotent
        EnsureFunc := cfg.EnsureFunc.getD (fun _ => false)
        HandleFunc := cfg.HandleFunc
        RetryDelay := cfg.RetryDelay.getD (fun _ => -1)
        DLStore := cfg.DLStore.getD nullDLStorageStore
        SendToQueue := cfg.SendToQueue }

/-- Transaction options as `Send` uses them (sender.go): the derived
record queue name `"<topic>.tx-record"` and the timeout used as the
delay of the reconciliation record. -/
structure TxOpts where
  recordQueue : String
  Timeout : Int

/-- Error value returned by `Sender.Send`, one constructor per distinct
`return` of an error in the source; `localTx e` is the error of the
local transaction callback returned unchanged. -/
inductive SendErr where
  | missingTxOptions
  | txStoreFailed
  | recordSendFailed
  | localTx (e : String)
  | topicSendFailed

/-- Event trace of the collaborator calls `Send` makes. -/
inductive SEv where
  | txStore (data : Json) (id : String)
  | sendQueue (q : String) (data : Json) (delay : Int)
  | sendTopic (t : String) (data : Json) (rk : String)
  | txRemove (id : String)

/-- Oracles for the collaborators of `Send`: driver send errors, the id
assigned by `TxStorage.Store` (`none` = store error), and
`TxStorage.Remove` errors. -/
structure SendEnv where
  storeRes : Json → Option String
  sendQueueErr : String → Json → Int → Option Unit
  sendTopicErr : String → Json → String → Option Unit
  removeErr : String → Option Unit

/-- The `TxStorage` contents, an association of ids to stored
half-message bytes. -/
def TxState : Type := List (String × Json)

/-- Source `Sender.txRemove` (sender.go): `TxStorage.Remove(id)`, error
only logged.  On an error the entry stays; on success it is deleted. -/
def txRemove (env : SendEnv) (id : String) (st : TxState) : TxState :=
  match env.removeErr id with
  | some _ => st
  | none => List.filter (fun kv => kv.1 ≠ id) st

/-- Source `Sender.Send` (sender.go).  `localTxArg = none` models calling
`Send(msg)` without a local transaction (or with a nil one);
`some localTxRes` models `Send(msg, localTx)` where `localTxRes` is the
result of `localTx()` (`none` = nil error, `some e` = error `e`).
Returns (returned error, final TxStorage contents, event trace). -/
def Send (env : SendEnv) (topic : String) (txOpts : Option TxOpts)
    (msg : Message) (localTxArg : Option (Option String)) (st : TxState) :
    Option SendErr × TxState × List SEv :=
  match localTxArg with
  | none =>
    match env.sendTopicErr topic (encode msg) msg.RouteKey with
    | some _ =>
      (some SendErr.topicSendFailed, st, [SEv.sendTopic topic (encode msg) msg.RouteKey])
    | none => (none, st, [SEv.sendTopic topic (encode msg) msg.RouteKey])
  | some localTxRes =>
    match txOpts with
    | none => (some SendErr.missingTxOptions, st, [])
    | some txo =>
      let data := encode msg
      match env.storeRes data with
      | none => (some SendErr.txStoreFailed, st, [])
      | some id =>
        let st1 : TxState := (id, data) :: st
        let record := encode (MessageWithId id (Json.str id) "")
        let tr1 := [SEv.txStore data id, SEv.sendQueue txo.recordQueue record txo.Timeout]
        match env.sendQueueErr txo.recordQueue record txo.Timeout with
        | some _ => (some SendErr.recordSendFailed, st1, tr1)
        | none =>
          match localTxRes with
          | some e =>
            (some (SendErr.localTx e), txRemove env id st1, tr1 ++ [SEv.txRemove id])
          | none =>
            match env.sendTopicErr topic data msg.RouteKey with
            | some _ => (none, st1, tr1 ++ [SEv.sendTopic topic data msg.RouteKey])
            | none =>
              (none, txRemove env id st1,
                tr1 ++ [SEv.sendTopic topic data msg.RouteKey, SEv.txRemove id])

/-- Event trace of the collaborator calls the reconciliation handler
makes. -/
inductive TEv where
  | fetch (id : String)
  | remove (id : String)
  | sendTopic (t : String) (data : Json) (rk : String)

/-- Oracles for the collaborators of the reconciliation handler:
`TxStorage.Fetch` (`none` = error, `some none` = data absent,
`some (some d)` = stored bytes), `TxOptions.EnsureFunc`, driver
`SendToTopic` errors, and `TxStorage.Remove` errors (only logged). -/
structure TxHEnv where
  fetch : String → Option (Option Json)
  EnsureFunc : Message → Bool
  sendTopicErr : String → Json → String → Option Unit
  removeErr : String → Option Unit

/-- The `HandleFunc` closure of the tx-handler built by `Sender.Prepare`
(sender.go): scan the record for the half-message id, fetch it, and
either republish (EnsureFunc true) or drop (EnsureFunc false).  `none`
models a panic (record payload not a marshalled string, or stored bytes
that do not decode), which the surrounding `handleMsg` barrier catches. -/
def txHandleFunc (env : TxHEnv) (topic : String) (record : Message) :
    Option (Bool × List TEv) :=
  match record.Scan with
  | some (Json.str id) =>
    match env.fetch id with
    | none => some (false, [TEv.fetch id])
    | some none => some (true, [TEv.fetch id, TEv.remove id])
    | some (some data) =>
      match decode data with
      | none => none
      | some msg =>
        if env.EnsureFunc msg then
          match env.sendTopicErr topic data msg.RouteKey with
          | none =>
            some (true, [TEv.fetch id, TEv.sendTopic topic data msg.RouteKey, TEv.remove id])
          | some _ =>
            some (false, [TEv.fetch id, TEv.sendTopic topic data msg.RouteKey])
        else some (true, [TEv.fetch id, TEv.remove id])
  | _ => none

/-- Sample idempotent store whose `Acquire` always allows. -/
def idemAllow : Idempotent :=
  { acquire := fun _ => (true, none), release := fun _ => none }

/-- Sample prepared handler whose callback always fails and whose retry
delay is the default `-1`. -/
def hFailEx : HandlerM :=
  { Queue := "q", Idem := idemAllow,
    EnsureFunc := (fun _ => false),
    HandleFunc := (fun _ => Except.ok false),
    RetryDelay := (fun _ => -1),
    DLStore := (fun _ _ => none),
    SendToQueue := (fun _ _ _ => none) }

/-- Sample prepared handler with a constant retry delay of 7. -/
def hRetryEx : HandlerM := { hFailEx with RetryDelay := fun _ => 7 }

/-- Sample prepared handler whose callback panics. -/
def hPanicEx : HandlerM := { hFailEx with HandleFunc := fun _ => Except.error () }

/-- Sample prepared handler whose idempotent store always denies. -/
def hDenyEx : HandlerM := { hFailEx with Idem := nullIdempotent }

/-- Sample handler configuration with no idempotent store and no ensure
callback configured. -/
def cfgNullEx : HandlerCfg :=
  { Queue := "q", Idem := none, EnsureFunc := none,
    HandleFunc := (fun _ => Except.ok true), RetryDelay := none,
    DLStore := none, SendToQueue := (fun _ _ _ => none) }

/-- Sample sender collaborators where the record-queue publish fails. -/
def sendEnvRecFail : SendEnv :=
  { storeRes := (fun _ => some "t1"), sendQueueErr := (fun _ _ _ => some ()),
    sendTopicErr := (fun _ _ _ => none), removeErr := (fun _ => none) }

/-- Sample sender collaborators where every driver and storage call
succeeds, with store id "t2". -/
def sendEnvOk : SendEnv :=
  { storeRes := (fun _ => some "t2"), sendQueueErr := (fun _ _ _ => none),
    sendTopicErr := (fun _ _ _ => none), removeErr := (fun _ => none) }

/-- Sample reconciliation collaborators where `TxStorage.Fetch` errs. -/
def txEnvFetchErr : TxHEnv :=
  { fetch := (fun _ => none), EnsureFunc := (fun _ => true),
    sendTopicErr := (fun _ _ _ => none), removeErr := (fun _ => none) }

theorem decode_encode (m : Message) : decode (encode m) = some m := by
  obtain ⟨b, p, r, k⟩ := m
  by_cases hb : b = "" <;> by_cases hr : r = 0 <;> by_cases hk : k = "" <;>
    cases p <;>
      simp_all [decode, encode, applyField, List.foldlM]

/-- C10: for every payload value P, generated id and route key k, decoding
the encoding of `MessageAutoId(P, k)` yields a message equal to the
original (same BizUID, Payload, Retried, RouteKey), and `Scan` on it with
a destination of P's shape recovers P. -/
theorem message_roundtrip_scan (genId : String) (P : Json) (k : String) :
    decode (encode (MessageAutoId genId P k)) = some (MessageAutoId genId P k)
      ∧ (MessageAutoId genId P k).Scan = some P :=
  ⟨decode_encode _, rfl⟩

/-- C1: when `Idempotent.Acquire(key)` returns an error, `allow` is forced
to false; and whenever `allow` is false and `EnsureFunc(msg)` is false,
`handleMsg` returns true (ack) without ever invoking `HandleFunc`. -/
theorem handleMsg_double_check_acks (h : HandlerM) (data : Json) (msg : Message)
    (hdec : decode data = some msg)
    (hallow : (h.Idem.acquire (h.Queue ++ "." ++ msg.BizUID)).2.isSome = true
      ∨ (h.Idem.acquire (h.Queue ++ "." ++ msg.BizUID)).1 = false)
    (hens : h.EnsureFunc msg = false) :
    handleMsg h data
        = (true, [Ev.acquire (h.Queue ++ "." ++ msg.BizUID), Ev.ensureCall])
      ∧ Ev.handleCall ∉ (handleMsg h data).2 := by
  have hA : allowOf h (h.Queue ++ "." ++ msg.BizUID) = false := by
    unfold allowOf
    rcases hallow with h1 | h1
    · simp [h1]
    · by_cases h2 : (h.Idem.acquire (h.Queue ++ "." ++ msg.BizUID)).2.isSome <;>
        simp [h1, h2]
  have hrun : handleMsg h data
      = (true, [Ev.acquire (h.Queue ++ "." ++ msg.BizUID), Ev.ensureCall]) := by
    simp [handleMsg, handleMsgBody, hdec, hA, hens]
  refine ⟨hrun, ?_⟩
  rw [hrun]
  simp

/-- C2: if decoding the envelope panics, or the gate allowed processing and
the user callback `HandleFunc` panics, `handleMsg` recovers the panic,
attempts `DLStorage.Store(queue, raw)` with the raw driver bytes, and
returns true exactly when that store succeeded. -/
theorem handleMsg_panic_to_dlstorage (h : HandlerM) (data : Json)
    (hpanic : decode data = none
      ∨ ∃ msg, decode data = some msg
          ∧ (allowOf h (h.Queue ++ "." ++ msg.BizUID) = true ∨ h.EnsureFunc msg = true)
          ∧ h.HandleFunc msg = Except.error ()) :
    (handleMsg h data).1 = (h.DLStore h.Queue data).isNone
      ∧ Ev.dlStore h.Queue data ∈ (handleMsg h data).2 := by
  rcases hpanic with hd | ⟨msg, hd, hgate, herr⟩
  · constructor <;> simp [handleMsg, handleMsgBody, hd]
  · by_cases hA : allowOf h (h.Queue ++ "." ++ msg.BizUID) = true
    · constructor <;> simp [handleMsg, handleMsgBody, afterGate, hd, hA, herr]
    · have hE : h.EnsureFunc msg = true := by
        rcases hgate with h1 | h1
        · exact absurd h1 hA
        · exact h1
      simp only [Bool.not_eq_true] at hA
      constructor <;> simp [handleMsg, handleMsgBody, afterGate, hd, hA, hE, herr]

/-- C3: on the failure path of `handleMsg` (`HandleFunc` returned false),
`Idempotent.Release(key)` is invoked before the retry re-publish or the
dead-letter store: the trace ends with the release followed by the single
store/send event of the branch chosen for the incremented retry count. -/
theorem handleMsg_release_before_retry (h : HandlerM) (data : Json) (msg : Message)
    (hdec : decode data = some msg)
    (hgate : allowOf h (h.Queue ++ "." ++ msg.BizUID) = true ∨ h.EnsureFunc msg = true)
    (hfail : h.HandleFunc msg = Except.ok false) :
    ∃ pre, (handleMsg h data).2
        = pre ++ [Ev.release (h.Queue ++ "." ++ msg.BizUID),
            if h.RetryDelay (msg.Retried + 1) < 0 then Ev.dlStore h.Queue data
            else Ev.sendQueue h.Queue (encode { msg with Retried := msg.Retried + 1 })
              (h.RetryDelay (msg.Retried + 1))]
      ∧ ∀ ev ∈ pre, ev = Ev.acquire (h.Queue ++ "." ++ msg.BizUID)
          ∨ ev = Ev.ensureCall ∨ ev = Ev.handleCall := by
  by_cases hA : allowOf h (h.Queue ++ "." ++ msg.BizUID) = true
  · refine ⟨[Ev.acquire (h.Queue ++ "." ++ msg.BizUID), Ev.handleCall], ?_, ?_⟩
    · by_cases hdel : h.RetryDelay (msg.Retried + 1) < 0 <;>
        simp [handleMsg, handleMsgBody, afterGate, failurePath, hdec, hA, hfail, hdel]
    · intro ev hev
      fin_cases hev <;> simp
  · have hE : h.EnsureFunc msg = true := by
      rcases hgate with h1 | h1
      · exact absurd h1 hA
      · exact h1
    simp only [Bool.not_eq_true] at hA
    refine ⟨[Ev.acquire (h.Queue ++ "." ++ msg.BizUID), Ev.ensureCall, Ev.handleCall],
      ?_, ?_⟩
    · by_cases hdel : h.RetryDelay (msg.Retried + 1) < 0 <;>
        simp [handleMsg, handleMsgBody, afterGate, failurePath, hdec, hA, hE, hfail, hdel]
    · intro ev hev
      fin_cases hev <;> simp

/-- C4: when `HandleFunc` returns false and `RetryDelay(Retried+1)` is
negative, `handleMsg` passes the raw envelope bytes (not the inner
Payload field) to `DLStorage.Store(queue, ...)`, returning false if the
store fails and true if it succeeds. -/
theorem handleMsg_dead_letter_raw (h : HandlerM) (data : Json) (msg : Message)
    (hdec : decode data = some msg)
    (hgate : allowOf h (h.Queue ++ "." ++ msg.BizUID) = true ∨ h.EnsureFunc msg = true)
    (hfail : h.HandleFunc msg = Except.ok false)
    (hneg : h.RetryDelay (msg.Retried + 1) < 0) :
    (handleMsg h data).1 = (h.DLStore h.Queue data).isNone
      ∧ (∃ pre, (handleMsg h data).2 = pre ++ [Ev.dlStore h.Queue data]) := by
  by_cases hA : allowOf h (h.Queue ++ "." ++ msg.BizUID) = true
  · constructor
    · simp [handleMsg, handleMsgBody, afterGate, failurePath, hdec, hA, hfail, hneg]
    · refine ⟨[Ev.acquire (h.Queue ++ "." ++ msg.BizUID), Ev.handleCall,
        Ev.release (h.Queue ++ "." ++ msg.BizUID)], ?_⟩
      simp [handleMsg, handleMsgBody, afterGate, failurePath, hdec, hA, hfail, hneg]
  · have hE : h.EnsureFunc msg = true := by
      rcases hgate with h1 | h1
      · exact absurd h1 hA
      · exact h1
    simp only [Bool.not_eq_true] at hA
    constructor
    · simp [handleMsg, handleMsgBody, afterGate, failurePath, hdec, hA, hE, hfail, hneg]
    · refine ⟨[Ev.acquire (h.Queue ++ "." ++ msg.BizUID), Ev.ensureCall, Ev.handleCall,
        Ev.release (h.Queue ++ "." ++ msg.BizUID)], ?_⟩
      simp [handleMsg, handleMsgBody, afterGate, failurePath, hdec, hA, hE, hfail, hneg]

/-- C5: when `HandleFunc` returns false and `RetryDelay(Retried+1) = d ≥ 0`,
`handleMsg` re-publishes to the same queue, with delay d, the encoding of
the message whose Retried field is one greater than received, and returns
true exactly when `SendToQueue` succeeded. -/
theorem handleMsg_retry_republish (h : HandlerM) (data : Json) (msg : Message) (d : Int)
    (hdec : decode data = some msg)
    (hgate : allowOf h (h.Queue ++ "." ++ msg.BizUID) = true ∨ h.EnsureFunc msg = true)
    (hfail : h.HandleFunc msg = Except.ok false)
    (hd : h.RetryDelay (msg.Retried + 1) = d) (hnn : 0 ≤ d) :
    (handleMsg h data).1
        = (h.SendToQueue h.Queue (encode { msg with Retried := msg.Retried + 1 }) d).isNone
      ∧ (∃ pre, (handleMsg h data).2
          = pre ++ [Ev.sendQueue h.Queue
              (encode { msg with Retried := msg.Retried + 1 }) d]) := by
  have hdel : ¬ h.RetryDelay (msg.Retried + 1) < 0 := by omega
  have hd0 : ¬ d < 0 := by omega
  by_cases hA : allowOf h (h.Queue ++ "." ++ msg.BizUID) = true
  · constructor
    · simp [handleMsg, handleMsgBody, afterGate, failurePath, hdec, hA, hfail, hdel, hd, hd0]
    · refine ⟨[Ev.acquire (h.Queue ++ "." ++ msg.BizUID), Ev.handleCall,
        Ev.release (h.Queue ++ "." ++ msg.BizUID)], ?_⟩
      simp [handleMsg, handleMsgBody, afterGate, failurePath, hdec, hA, hfail, hdel, hd, hd0]
  · have hE : h.EnsureFunc msg = true := by
      rcases hgate with h1 | h1
      · exact absurd h1 hA
      · exact h1
    simp only [Bool.not_eq_true] at hA
    constructor
    · simp [handleMsg, handleMsgBody, afterGate, failurePath, hdec, hA, hE, hfail, hdel, hd, hd0]
    · refine ⟨[Ev.acquire (h.Queue ++ "." ++ msg.BizUID), Ev.ensureCall, Ev.handleCall,
        Ev.release (h.Queue ++ "." ++ msg.BizUID)], ?_⟩
      simp [handleMsg, handleMsgBody, afterGate, failurePath, hdec, hA, hE, hfail, hdel, hd, hd0]

/-- C9: a Handler prepared with neither an Idempotent implementation nor an
EnsureFunc acks every decodable message without invoking `HandleFunc`: the
substituted `nullIdempotent.Acquire` always returns `(false, nil)` and the
default EnsureFunc always returns false. -/
theorem prepared_null_defaults_ack (cfg : HandlerCfg)
    (hI : cfg.Idem = none) (hE : cfg.EnsureFunc = none) (hq : cfg.Queue ≠ "")
    (data : Json) (msg : Message) (hdec : decode data = some msg) :
    ∃ h, Prepare cfg = some h
      ∧ handleMsg h data
          = (true, [Ev.acquire (cfg.Queue ++ "." ++ msg.BizUID), Ev.ensureCall])
      ∧ Ev.handleCall ∉ (handleMsg h data).2 := by
  refine ⟨{ Queue := cfg.Queue, Idem := nullIdempotent,
            EnsureFunc := (fun _ => false), HandleFunc := cfg.HandleFunc,
            RetryDelay := cfg.RetryDelay.getD (fun _ => -1),
            DLStore := cfg.DLStore.getD nullDLStorageStore,
            SendToQueue := cfg.SendToQueue }, ?_, ?_, ?_⟩
  · simp [Prepare, hq, hI, hE]
  · simp [handleMsg, handleMsgBody, allowOf, hdec, nullIdempotent]
  · simp [handleMsg, handleMsgBody, allowOf, hdec, nullIdempotent]

/-- C6 counterexample: a transactional Send in which publishing the
reconciliation record fails (`Driver.SendToQueue` errs) returns an error
but leaves the orphan half-message in TxStorage — with the store
assigning id "t1" to the encoded zero message, the final TxStorage still
maps "t1" to it, refuting that TxStorage holds no entry for that id. -/
theorem send_record_fail_cex :
    (Send
        { storeRes := fun _ => some "t1", sendQueueErr := fun _ _ _ => some (),
          sendTopicErr := fun _ _ _ => none, removeErr := fun _ => none }
        "topic" (some { recordQueue := "topic.tx-record", Timeout := 5 })
        {} (some none) []).1 = some SendErr.recordSendFailed
      ∧ List.lookup "t1"
          (Send
            { storeRes := fun _ => some "t1", sendQueueErr := fun _ _ _ => some (),
              sendTopicErr := fun _ _ _ => none, removeErr := fun _ => none }
            "topic" (some { recordQueue := "topic.tx-record", Timeout := 5 })
            {} (some none) []).2.1 = some (encode {}) :=
  ⟨rfl, rfl⟩

/-- C6 amended: in a transactional Send, if publishing the delayed
reconciliation record to the record queue fails, Send returns an error
and the orphan half-message REMAINS in TxStorage (the staged entry is
kept and no `TxStorage.Remove` is issued). -/
theorem send_record_fail_keeps_half (env : SendEnv) (topic : String)
    (txo : TxOpts) (msg : Message) (ltx : Option String) (st : TxState) (id : String)
    (hstore : env.storeRes (encode msg) = some id)
    (hq : env.sendQueueErr txo.recordQueue
        (encode (MessageWithId id (Json.str id) "")) txo.Timeout = some ()) :
    Send env topic (some txo) msg (some ltx) st
        = (some SendErr.recordSendFailed, (id, encode msg) :: st,
            [SEv.txStore (encode msg) id,
              SEv.sendQueue txo.recordQueue
                (encode (MessageWithId id (Json.str id) "")) txo.Timeout])
      ∧ ∀ j, SEv.txRemove j ∉ (Send env topic (some txo) msg (some ltx) st).2.2 := by
  have hrun : Send env topic (some txo) msg (some ltx) st
      = (some SendErr.recordSendFailed, (id, encode msg) :: st,
          [SEv.txStore (encode msg) id,
            SEv.sendQueue txo.recordQueue
              (encode (MessageWithId id (Json.str id) "")) txo.Timeout]) := by
    simp [Send, hstore, hq]
  refine ⟨hrun, fun j => ?_⟩
  rw [hrun]
  simp

/-- C7: in a transactional Send, if localTx returns an error,
`TxStorage.Remove(id)` is issued for the staged half-message, Send
returns that error, and `Driver.SendToTopic` is never called in that
invocation. -/
theorem send_localtx_abort (env : SendEnv) (topic : String) (txo : TxOpts)
    (msg : Message) (e : String) (st : TxState) (id : String)
    (hstore : env.storeRes (encode msg) = some id)
    (hq : env.sendQueueErr txo.recordQueue
        (encode (MessageWithId id (Json.str id) "")) txo.Timeout = none) :
    (Send env topic (some txo) msg (some (some e)) st).1 = some (SendErr.localTx e)
      ∧ SEv.txRemove id ∈ (Send env topic (some txo) msg (some (some e)) st).2.2
      ∧ ∀ t d rk, SEv.sendTopic t d rk
          ∉ (Send env topic (some txo) msg (some (some e)) st).2.2 := by
  have hrun : Send env topic (some txo) msg (some (some e)) st
      = (some (SendErr.localTx e), txRemove env id ((id, encode msg) :: st),
          [SEv.txStore (encode msg) id,
            SEv.sendQueue txo.recordQueue
              (encode (MessageWithId id (Json.str id) "")) txo.Timeout,
            SEv.txRemove id]) := by
    simp [Send, hstore, hq]
  refine ⟨?_, ?_, fun t d rk => ?_⟩ <;> rw [hrun] <;> simp

/-- C8: the reconciliation handler (tx-handler HandleFunc), given a record
carrying id: returns false when `TxStorage.Fetch(id)` errs; returns true
when the fetched data is absent; otherwise decodes the message and calls
`TxOptions.EnsureFunc` — on true it publishes the stored data via
`SendToTopic` and returns true (with `TxStorage.Remove(id)`) only when
the publish succeeds, returning false on publish failure; on false it
removes the half-message and returns true without publishing. -/
theorem tx_handler_reconciliation (env : TxHEnv) (topic : String)
    (record : Message) (id : String)
    (hid : record.Payload = some (Json.str id)) :
    (env.fetch id = none →
        txHandleFunc env topic record = some (false, [TEv.fetch id]))
      ∧ (env.fetch id = some none →
          txHandleFunc env topic record = some (true, [TEv.fetch id, TEv.remove id]))
      ∧ (∀ data msg, env.fetch id = some (some data) → decode data = some msg →
          (env.EnsureFunc msg = true →
              (env.sendTopicErr topic data msg.RouteKey = none →
                  txHandleFunc env topic record
                    = some (true, [TEv.fetch id,
                        TEv.sendTopic topic data msg.RouteKey, TEv.remove id]))
                ∧ (∀ u, env.sendTopicErr topic data msg.RouteKey = some u →
                    txHandleFunc env topic record
                      = some (false, [TEv.fetch id,
                          TEv.sendTopic topic data msg.RouteKey])))
            ∧ (env.EnsureFunc msg = false →
                txHandleFunc env topic record
                  = some (true, [TEv.fetch id, TEv.remove id]))) := by
  have hscan : record.Scan = some (Json.str id) := hid
  refine ⟨fun hf => ?_, fun hf => ?_,
    fun data msg hf hdec =>
      ⟨fun hens => ⟨fun hs => ?_, fun u hs => ?_⟩, fun hens => ?_⟩⟩
  · simp [txHandleFunc, hscan, hf]
  · simp [txHandleFunc, hscan, hf]
  · simp [txHandleFunc, hscan, hf, hdec, hens, hs]
  · simp [txHandleFunc, hscan, hf, hdec, hens, hs]
  · simp [txHandleFunc, hscan, hf, hdec, hens]

/-- Witness for C1 at a concrete handler whose idempotent store denies. -/
theorem handleMsg_double_check_acks_witness :
    handleMsg hDenyEx Json.null
        = (true, [Ev.acquire (hDenyEx.Queue ++ "." ++ Message.BizUID {}), Ev.ensureCall])
      ∧ Ev.handleCall ∉ (handleMsg hDenyEx Json.null).2 :=
  handleMsg_double_check_acks hDenyEx Json.null {} rfl (Or.inr rfl) rfl

/-- Witness for C2 at a concrete handler whose callback panics. -/
theorem handleMsg_panic_to_dlstorage_witness :
    (handleMsg hPanicEx Json.null).1
        = (hPanicEx.DLStore hPanicEx.Queue Json.null).isNone
      ∧ Ev.dlStore hPanicEx.Queue Json.null ∈ (handleMsg hPanicEx Json.null).2 :=
  handleMsg_panic_to_dlstorage hPanicEx Json.null (Or.inr ⟨{}, rfl, Or.inl rfl, rfl⟩)

/-- Witness for C3 at a concrete handler whose callback fails. -/
theorem handleMsg_release_before_retry_witness :
    ∃ pre, (handleMsg hFailEx Json.null).2
        = pre ++ [Ev.release (hFailEx.Queue ++ "." ++ Message.BizUID {}),
            if hFailEx.RetryDelay (Message.Retried {} + 1) < 0
            then Ev.dlStore hFailEx.Queue Json.null
            else Ev.sendQueue hFailEx.Queue
              (encode { ({} : Message) with Retried := Message.Retried {} + 1 })
              (hFailEx.RetryDelay (Message.Retried {} + 1))]
      ∧ ∀ ev ∈ pre, ev = Ev.acquire (hFailEx.Queue ++ "." ++ Message.BizUID {})
          ∨ ev = Ev.ensureCall ∨ ev = Ev.handleCall :=
  handleMsg_release_before_retry hFailEx Json.null {} rfl (Or.inl rfl) rfl

/-- Witness for C4 at a concrete handler with the no-retry delay. -/
theorem handleMsg_dead_letter_raw_witness :
    (handleMsg hFailEx Json.null).1 = (hFailEx.DLStore hFailEx.Queue Json.null).isNone
      ∧ (∃ pre, (handleMsg hFailEx Json.null).2
          = pre ++ [Ev.dlStore hFailEx.Queue Json.null]) :=
  handleMsg_dead_letter_raw hFailEx Json.null {} rfl (Or.inl rfl) rfl (by decide)

/-- Witness for C5 at a concrete handler with retry delay 7. -/
theorem handleMsg_retry_republish_witness :
    (handleMsg hRetryEx Json.null).1
        = (hRetryEx.SendToQueue hRetryEx.Queue
            (encode { ({} : Message) with Retried := Message.Retried {} + 1 }) 7).isNone
      ∧ (∃ pre, (handleMsg hRetryEx Json.null).2
          = pre ++ [Ev.sendQueue hRetryEx.Queue
              (encode { ({} : Message) with Retried := Message.Retried {} + 1 }) 7]) :=
  handleMsg_retry_republish hRetryEx Json.null {} 7 rfl (Or.inl rfl) rfl rfl (by decide)

/-- Witness for the amended C6 at a concrete failing record publish. -/
theorem send_record_fail_keeps_half_witness :
    Send sendEnvRecFail "topic"
        (some { recordQueue := "topic.tx-record", Timeout := 5 }) {} (some none) []
        = (some SendErr.recordSendFailed, [("t1", encode {})],
            [SEv.txStore (encode {}) "t1",
              SEv.sendQueue "topic.tx-record"
                (encode (MessageWithId "t1" (Json.str "t1") "")) 5])
      ∧ ∀ j, SEv.txRemove j
          ∉ (Send sendEnvRecFail "topic"
              (some { recordQueue := "topic.tx-record", Timeout := 5 })
              {} (some none) []).2.2 :=
  send_record_fail_keeps_half sendEnvRecFail "topic"
    { recordQueue := "topic.tx-record", Timeout := 5 } {} none [] "t1" rfl rfl

/-- Witness for C7 at a concrete failing local transaction. -/
theorem send_localtx_abort_witness :
    (Send sendEnvOk "topic"
        (some { recordQueue := "topic.tx-record", Timeout := 5 })
        {} (some (some "boom")) []).1 = some (SendErr.localTx "boom")
      ∧ SEv.txRemove "t2"
          ∈ (Send sendEnvOk "topic"
              (some { recordQueue := "topic.tx-record", Timeout := 5 })
              {} (some (some "boom")) []).2.2
      ∧ ∀ t d rk, SEv.sendTopic t d rk
          ∉ (Send sendEnvOk "topic"
              (some { recordQueue := "topic.tx-record", Timeout := 5 })
              {} (some (some "boom")) []).2.2 :=
  send_localtx_abort sendEnvOk "topic"
    { recordQueue := "topic.tx-record", Timeout := 5 } {} "boom" [] "t2" rfl rfl

/-- Witness for C8 at a concrete failing fetch. -/
theorem tx_handler_reconciliation_witness :
    txHandleFunc txEnvFetchErr "topic" (MessageWithId "i" (Json.str "i") "")
        = some (false, [TEv.fetch "i"]) :=
  (tx_handler_reconciliation txEnvFetchErr "topic"
    (MessageWithId "i" (Json.str "i") "") "i" rfl).1 rfl

/-- Witness for C9 at a concrete configuration with neither idempotent
store nor ensure callback. -/
theorem prepared_null_defaults_ack_witness :
    ∃ h, Prepare cfgNullEx = some h
      ∧ handleMsg h Json.null
          = (true, [Ev.acquire (cfgNullEx.Queue ++ "." ++ Message.BizUID {}), Ev.ensureCall])
      ∧ Ev.handleCall ∉ (handleMsg h Json.null).2 :=
  prepared_null_defaults_ack cfgNullEx rfl rfl (by decide) Json.null {} rfl

end EasyBus
